import Mathlib

/-!
Verification of the interactive stateful message engine of the
`osu-discord-bot` repository: the pager used by paginated lists, the
per-request attribute cache of `commands/osu/recent/list.rs`, and the
`SimulateComponents` active message of `active/impls/simulate/mod.rs`
(ownership enforcement, modal field parsing, defer-flag lifecycle and
page building).

Machine floats (`f32`/`f64`) are modelled as rationals, platform user
ids (`Id<UserMarker>`, a `u64`) as naturals, and the external crates
(mod parsing from `rosu_v2`, difficulty calculation from `rosu_pp`,
numeric `FromStr` impls, the `top_old` menu parser) as explicit
function parameters so that the theorems quantify over them.
-/

/-! ## Pager

Modelled from the spec: the `Pages` value type of `active/pagination`
is not among the sampled sources; only its call sites (`top_if.rs`)
are.  The spec describes it as pure index arithmetic over a fixed
entry count: `index` (zero-based, a multiple of `per_page`),
`per_page` fixed at construction, derived 1-based
`curr_page`/`last_page`, with `jump` clamping to `[1, last_page]` and
`next_page`/`prev_page` saturating at the boundaries. -/

structure Pages where
  perPage : Nat
  amount : Nat
  index : Nat
deriving DecidableEq

/-- Modelled from the spec: a freshly built pager starts on the first page. -/
def Pages.new (perPage amount : Nat) : Pages :=
  { perPage := perPage, amount := amount, index := 0 }

/-- Modelled from the spec: largest page-start offset, i.e. the start of the
final (possibly partial) page. -/
def Pages.lastIndex (p : Pages) : Nat :=
  p.perPage * ((p.amount - 1) / p.perPage)

/-- Modelled from the spec: 1-based current page number. -/
def Pages.currPage (p : Pages) : Nat :=
  p.index / p.perPage + 1

/-- Modelled from the spec: 1-based number of the final page. -/
def Pages.lastPage (p : Pages) : Nat :=
  p.lastIndex / p.perPage + 1

/-- Modelled from the spec: advance one page, saturating at the final page. -/
def Pages.nextPage (p : Pages) : Pages :=
  { p with index := min (p.index + p.perPage) p.lastIndex }

/-- Modelled from the spec: go back one page, saturating at the first page
(natural subtraction saturates at zero). -/
def Pages.prevPage (p : Pages) : Pages :=
  { p with index := p.index - p.perPage }

/-- Modelled from the spec: jump to a 1-based page number, clamped into
`[1, last_page]`. -/
def Pages.jump (p : Pages) (page : Nat) : Pages :=
  { p with index := (min (max page 1) p.lastPage - 1) * p.perPage }

/-- A pagination mutation, as triggered by the pagination component
handlers (next/prev/jump). -/
inductive PageOp where
  | next
  | prev
  | jmp (page : Nat)
deriving DecidableEq

def PageOp.apply (p : Pages) : PageOp → Pages
  | .next => p.nextPage
  | .prev => p.prevPage
  | .jmp k => p.jump k

/-- Run a sequence of pagination mutations. -/
def Pages.run (p : Pages) (ops : List PageOp) : Pages :=
  ops.foldl PageOp.apply p

/-! ## Attribute cache

Embedding of `CachedAttributes` / `CachedEntry` from
`commands/osu/recent/list.rs` (lines 749-798).  The modifier set
(`GameMods`) is an abstract type `μ` with decidable equality, the
computed `DifficultyAttributes` an abstract type `α`, and the beatmap
an abstract type `τ`; `map.check_suspicion().is_err()` and
`Difficulty::new().mods(..).lazer(..).calculate(map)` come from the
external `rosu_pp` crate and are passed in as functions. -/

structure Score (μ : Type) where
  map_id : Nat
  set_on_lazer : Bool
  mods : μ
deriving DecidableEq

structure CachedEntry (μ α : Type) where
  map_id : Nat
  lazer : Bool
  mods : μ
  attrs : α
deriving DecidableEq

structure CachedAttributes (μ α : Type) where
  entries : List (CachedEntry μ α)
deriving DecidableEq

/-- The `Default` derive on `CachedAttributes`: an empty entry list. -/
def CachedAttributes.empty (μ α : Type) : CachedAttributes μ α :=
  { entries := [] }

/-- The cache key of a stored entry: (map id, modifier set, lazer flag). -/
def CachedEntry.key {μ α : Type} (e : CachedEntry μ α) : Nat × μ × Bool :=
  (e.map_id, e.mods, e.lazer)

/-- The cache key a score asks for: (map id, modifier set, lazer flag). -/
def Score.key {μ : Type} (s : Score μ) : Nat × μ × Bool :=
  (s.map_id, s.mods, s.set_on_lazer)

/-- All keys currently held by the cache. -/
def CachedAttributes.keys {μ α : Type} (c : CachedAttributes μ α) :
    List (Nat × μ × Bool) :=
  c.entries.map CachedEntry.key

/-- `CachedAttributes::get`: linear scan for an entry with the same
(map id, mods, lazer) key; on hit return a clone of the stored
attributes; on miss first run the suspicion guard and bail out with no
attributes and no insertion if it trips; otherwise compute, push a new
entry and return the attributes. -/
def CachedAttributes.get {μ α τ : Type} [DecidableEq μ]
    (suspicious : τ → Bool) (calculate : τ → μ → Bool → α)
    (self : CachedAttributes μ α) (map : τ) (score : Score μ) :
    Option α × CachedAttributes μ α :=
  let map_id := score.map_id
  let lazer := score.set_on_lazer
  match self.entries.find? (fun e =>
      decide (e.map_id = map_id ∧ e.mods = score.mods ∧ e.lazer = lazer)) with
  | some entry => (some entry.attrs, self)
  | none =>
    if suspicious map then
      (none, self)
    else
      let attrs := calculate map score.mods lazer
      (some attrs,
        { entries := self.entries ++ [{ map_id := map_id, lazer := lazer,
                                        mods := score.mods, attrs := attrs }] })

/-- Fold a request sequence through the cache, keeping only the cache
state (the attribute results go to the list-building pipeline). -/
def CachedAttributes.runGets {μ α τ : Type} [DecidableEq μ]
    (suspicious : τ → Bool) (calculate : τ → μ → Bool → α)
    (c : CachedAttributes μ α) (reqs : List (τ × Score μ)) :
    CachedAttributes μ α :=
  reqs.foldl (fun c r => (CachedAttributes.get suspicious calculate c r.1 r.2).2) c

/-! ## Simulate active message: data model

Embedding of `SimulateComponents` and its event handlers from
`active/impls/simulate/mod.rs`.  `GameMods` values are modelled as
naturals (their bit representation); the four `TopOldVersion` variants
carry an abstract version payload. -/

inductive GameMode where
  | Osu
  | Taiko
  | Catch
  | Mania
deriving DecidableEq

inductive TopOldVersion where
  | Osu (v : Nat)
  | Taiko (v : Nat)
  | Catch (v : Nat)
  | Mania (v : Nat)
deriving DecidableEq

/-- The fields of the `rosu_pp::Beatmap` that `simulate/mod.rs` reads or
writes: the four attribute values and the mode. -/
structure Beatmap where
  ar : Rat
  cs : Rat
  hp : Rat
  od : Rat
  mode : GameMode
deriving DecidableEq

inductive SimulateMap where
  | Full (ppMap : Beatmap)
  | Attached (ppMap : Beatmap) (filename : String)
deriving DecidableEq

def SimulateMap.ppMap : SimulateMap → Beatmap
  | .Full m => m
  | .Attached m _ => m

def SimulateMap.setPpMap : SimulateMap → Beatmap → SimulateMap
  | .Full _, b => .Full b
  | .Attached _ f, b => .Attached b f

/-- `SimulateMap::mode`: the mode of the underlying `pp_map` (the
`rosu_pp` to `rosu_v2` mode conversion is the identity here). -/
def SimulateMap.mode (m : SimulateMap) : GameMode :=
  m.ppMap.mode

structure SimulateAttributes where
  ar : Option Rat
  cs : Option Rat
  hp : Option Rat
  od : Option Rat
deriving DecidableEq

structure SimulateData where
  mods : Option Nat
  acc : Option Rat
  combo : Option Nat
  n_geki : Option Nat
  n_katu : Option Nat
  n300 : Option Nat
  n100 : Option Nat
  n50 : Option Nat
  n_miss : Option Nat
  score : Option Nat
  n_slider_ends : Option Nat
  n_large_ticks : Option Nat
  attrs : SimulateAttributes
  clock_rate : Option Rat
  bpm : Option Rat
  set_on_lazer : Bool
  version : TopOldVersion
deriving DecidableEq

structure SimulateComponents where
  map : SimulateMap
  data : SimulateData
  defer : Bool
  msg_owner : Nat
deriving DecidableEq

/-- `SimulateComponents::new`: the defer flag starts as `true`. -/
def SimulateComponents.new (map : SimulateMap) (data : SimulateData)
    (msg_owner : Nat) : SimulateComponents :=
  { map := map, data := data, defer := true, msg_owner := msg_owner }

/-! ## Simulate active message: events and results -/

/-- A submitted text input of a modal: its component id and the
optional value string. -/
structure ModalField where
  custom_id : String
  value : Option String
deriving DecidableEq

structure ModalRow where
  components : List ModalField
deriving DecidableEq

/-- An inbound modal-submit event.  `userId` is `none` when the
platform event carries no resolvable author (`Authored::user_id`
returns an error there). -/
structure InteractionModal where
  userId : Option Nat
  custom_id : String
  components : List ModalRow
deriving DecidableEq

/-- An inbound component (button / select menu) event. -/
structure InteractionComponent where
  userId : Option Nat
  custom_id : String
  values : List String
deriving DecidableEq

/-- A text input specification built by `TextInputBuilder`. -/
structure TextInput where
  custom_id : String
  label : String
  placeholder : String
  required : Bool
deriving DecidableEq

/-- A modal specification built by `ModalBuilder`. -/
structure Modal where
  custom_id : String
  title : String
  inputs : List TextInput
deriving DecidableEq

/-- `TextInputBuilder::new(id, label).placeholder(p).required(false)`,
the only shape used by the simulate component handler. -/
def textInput (id label placeholder : String) : TextInput :=
  { custom_id := id, label := label, placeholder := placeholder, required := false }

inductive ComponentResult where
  | ignore
  | err (msg : String)
  | buildPage
  | createModal (modal : Modal)
deriving DecidableEq

/-- Result of one `handle_component` invocation: the new state, the
dispatcher result, whether the handler itself acknowledged (deferred)
the platform callback, and whether it logged an unknown-id warning. -/
structure HCOut where
  state : SimulateComponents
  res : ComponentResult
  acked : Bool
  warned : Bool
deriving DecidableEq

/-- Result of one `handle_modal` invocation that did not fail: the new
state and whether an unknown-id warning was logged. -/
structure ModalOut where
  state : SimulateComponents
  warned : Bool
deriving DecidableEq

/-- The collaborators of the simulate handlers that live outside the
sampled sources: `GameModsIntermode: FromStr` and
`GameModsIntermode::try_with_mode` / `GameMods::is_valid` from
`rosu_v2`, the numeric `FromStr` impls of `f32` and of the unsigned
integer types, and `TopOldVersion::from_menu_str` from the `top_old`
module.  Theorems quantify over this record. -/
structure SimEnv where
  parseMods : String → Option Nat
  tryWithMode : Nat → GameMode → Option Nat
  isValid : Nat → Bool
  parseF32 : String → Option Rat
  parseNat : String → Option Nat
  fromMenuStr : String → Option TopOldVersion

/-! ## Simulate active message: handlers -/

/-- `s.trim_start_matches('+').trim_end_matches('!')` applied to the
raw mods input. -/
def trimModsInput (s : String) : String :=
  String.mk (((s.data.dropWhile (fun c => c == '+')).reverse.dropWhile
    (fun c => c == '!')).reverse)

/-- `handle_topold_menu`: read the first selected menu value, parse it
into a `TopOldVersion`, defer the component callback (modelled as
always succeeding, recorded in `acked`), store the version and request
a rebuild. -/
def SimulateComponents.handleTopoldMenu (env : SimEnv)
    (st : SimulateComponents) (comp : InteractionComponent) : HCOut :=
  match comp.values.head? with
  | none => { state := st, res := .err "Missing simulate version",
              acked := false, warned := false }
  | some v =>
    match env.fromMenuStr v with
    | none => { state := st, res := .err ("Unknown TopOldVersion " ++ v),
                acked := false, warned := false }
    | some version =>
      { state := { st with data.version := version }, res := .buildPage,
        acked := true, warned := false }

/-- `SimulateComponents::handle_component` (lines 316-480): author
check, then dispatch on the component id; most ids open a modal,
`sim_lazer`/`sim_stable` mutate state, clear the defer flag and
request a rebuild, the four version menus go through
`handle_topold_menu`, anything else warns and is ignored. -/
def SimulateComponents.handleComponent (env : SimEnv)
    (st : SimulateComponents) (comp : InteractionComponent) : HCOut :=
  match comp.userId with
  | none => { state := st, res := .err "unknown author", acked := false, warned := false }
  | some uid =>
    if uid ≠ st.msg_owner then
      { state := st, res := .ignore, acked := false, warned := false }
    else
      let cid := comp.custom_id
      if cid = "sim_mods" then
        { state := st,
          res := .createModal
            { custom_id := "sim_mods", title := "Specify mods",
              inputs := [textInput "sim_mods" "Mods" "E.g. hd or HdHRdteZ"] },
          acked := false, warned := false }
      else if cid = "sim_combo" then
        { state := st,
          res := .createModal
            { custom_id := "sim_combo", title := "Specify combo",
              inputs := [textInput "sim_combo" "Combo" "Integer"] },
          acked := false, warned := false }
      else if cid = "sim_acc" then
        { state := st,
          res := .createModal
            { custom_id := "sim_acc", title := "Specify accuracy",
              inputs := [textInput "sim_acc" "Accuracy" "Number"] },
          acked := false, warned := false }
      else if cid = "sim_geki" then
        { state := st,
          res := .createModal
            { custom_id := "sim_geki", title := "Specify the amount of gekis",
              inputs := [textInput "sim_geki" "Amount of gekis" "Integer"] },
          acked := false, warned := false }
      else if cid = "sim_katu" then
        { state := st,
          res := .createModal
            { custom_id := "sim_katu", title := "Specify the amount of katus",
              inputs := [textInput "sim_katu" "Amount of katus" "Integer"] },
          acked := false, warned := false }
      else if cid = "sim_n300" then
        { state := st,
          res := .createModal
            { custom_id := "sim_n300", title := "Specify the amount of 300s",
              inputs := [textInput "sim_n300" "Amount of 300s" "Integer"] },
          acked := false, warned := false }
      else if cid = "sim_n100" then
        { state := st,
          res := .createModal
            { custom_id := "sim_n100", title := "Specify the amount of 100s",
              inputs := [textInput "sim_n100" "Amount of 100s" "Integer"] },
          acked := false, warned := false }
      else if cid = "sim_n50" then
        { state := st,
          res := .createModal
            { custom_id := "sim_n50", title := "Specify the amount of 50s",
              inputs := [textInput "sim_n50" "Amount of 50s" "Integer"] },
          acked := false, warned := false }
      else if cid = "sim_miss" then
        { state := st,
          res := .createModal
            { custom_id := "sim_miss", title := "Specify the amount of misses",
              inputs := [textInput "sim_miss" "Amount of misses" "Integer"] },
          acked := false, warned := false }
      else if cid = "sim_lazer" then
        { state := { st with data.set_on_lazer := true, defer := false },
          res := .buildPage, acked := false, warned := false }
      else if cid = "sim_stable" then
        { state := { st with data.set_on_lazer := false,
                             data.n_slider_ends := none,
                             data.n_large_ticks := none,
                             defer := false },
          res := .buildPage, acked := false, warned := false }
      else if cid = "sim_slider_ends" then
        { state := st,
          res := .createModal
            { custom_id := "sim_slider_ends",
              title := "Specify the amount of slider end hits",
              inputs := [textInput "sim_slider_ends" "Amount of slider end hits" "Integer"] },
          acked := false, warned := false }
      else if cid = "sim_large_ticks" then
        { state := st,
          res := .createModal
            { custom_id := "sim_large_ticks",
              title := "Specify the amount of large tick hits",
              inputs := [textInput "sim_large_ticks"
                "Amount of large tick hits (ticks & reverses)" "Integer"] },
          acked := false, warned := false }
      else if cid = "sim_score" then
        { state := st,
          res := .createModal
            { custom_id := "sim_score", title := "Specify the score",
              inputs := [textInput "sim_score" "Score" "Integer"] },
          acked := false, warned := false }
      else if cid = "sim_clock_rate" then
        { state := st,
          res := .createModal
            { custom_id := "sim_speed_adjustments", title := "Speed adjustments",
              inputs := [textInput "sim_clock_rate" "Clock rate" "Specify a clock rate",
                textInput "sim_bpm" "BPM (overwritten if clock rate is specified)"
                  "Specify a BPM"] },
          acked := false, warned := false }
      else if cid = "sim_attrs" then
        { state := st,
          res := .createModal
            { custom_id := "sim_attrs", title := "Attributes",
              inputs := [textInput "sim_ar" "AR" "Specify an approach rate",
                textInput "sim_cs" "CS" "Specify a circle size",
                textInput "sim_hp" "HP" "Specify a drain rate",
                textInput "sim_od" "OD" "Specify an overall difficulty"] },
          acked := false, warned := false }
      else if cid = "sim_osu_version" ∨ cid = "sim_taiko_version" ∨
              cid = "sim_catch_version" ∨ cid = "sim_mania_version" then
        SimulateComponents.handleTopoldMenu env st comp
      else
        { state := st, res := .ignore, acked := false, warned := true }

/-- The first text input of a modal submission
(`modal.data.components.first().and_then(|row| row.components.first())`). -/
def firstInput (modal : InteractionModal) : Option ModalField :=
  modal.components.head?.bind (fun row => row.components.head?)

/-- `.value.as_deref().filter(|val| !val.is_empty())`: an absent or
empty value becomes `none`. -/
def nonEmptyVal (v : Option String) : Option String :=
  v.filter (fun s => !s.data.isEmpty)

/-- `f32::clamp(self, min, max)` for the non-NaN values the rational
model covers. -/
def clampF32 (v lo hi : Rat) : Rat :=
  if v < lo then lo else if hi < v then hi else v

/-- `parse_attr` (lines 682-700): find the first row whose first
component carries the requested id, then parse its non-empty value,
turning parse failures into `None` (`.and_then(Result::ok)`). -/
def parseAttr {β : Type} (parse : String → Option β)
    (modal : InteractionModal) (component_id : String) : Option β :=
  (modal.components.findSome? (fun row =>
    row.components.head?.bind (fun c =>
      if c.custom_id = component_id then
        some ((nonEmptyVal c.value).bind parse)
      else
        none))).join

/-- `SimulateComponents::handle_modal` (lines 482-647): author check
(silent no-op on mismatch), extract the first input (error when
missing), then dispatch on the modal id.  Single-field modals clear
their value on absent/empty input, store the parsed value on success
and return early leaving the state untouched on a parse failure;
`sim_attrs` / `sim_speed_adjustments` overwrite each field with its
`parse_attr` result; an unknown id only warns.  The trailing
`modal.defer()` is a platform call without state effect. -/
def SimulateComponents.handleModal (env : SimEnv)
    (st : SimulateComponents) (modal : InteractionModal) :
    Except String ModalOut :=
  match modal.userId with
  | none => .error "unknown author"
  | some uid =>
    if uid ≠ st.msg_owner then
      .ok { state := st, warned := false }
    else
      match firstInput modal with
      | none => .error "Missing simulate modal input"
      | some field =>
        let input := nonEmptyVal field.value
        let cid := modal.custom_id
        if cid = "sim_mods" then
          match input.map (fun s => env.parseMods (trimModsInput s)) with
          | some (some m) =>
            match env.tryWithMode m st.map.mode with
            | some m2 =>
              if env.isValid m2 then
                .ok { state := { st with data.mods := some m2 }, warned := false }
              else
                .ok { state := st, warned := false }
            | none => .ok { state := st, warned := false }
          | some none => .ok { state := st, warned := false }
          | none => .ok { state := { st with data.mods := none }, warned := false }
        else if cid = "sim_acc" then
          match input.map env.parseF32 with
          | some (some v) =>
            .ok { state := { st with data.acc := some (clampF32 v 0 100) }, warned := false }
          | some none => .ok { state := st, warned := false }
          | none => .ok { state := { st with data.acc := none }, warned := false }
        else if cid = "sim_combo" then
          match input.map env.parseNat with
          | some (some v) => .ok { state := { st with data.combo := some v }, warned := false }
          | some none => .ok { state := st, warned := false }
          | none => .ok { state := { st with data.combo := none }, warned := false }
        else if cid = "sim_geki" then
          match input.map env.parseNat with
          | some (some v) => .ok { state := { st with data.n_geki := some v }, warned := false }
          | some none => .ok { state := st, warned := false }
          | none => .ok { state := { st with data.n_geki := none }, warned := false }
        else if cid = "sim_katu" then
          match input.map env.parseNat with
          | some (some v) => .ok { state := { st with data.n_katu := some v }, warned := false }
          | some none => .ok { state := st, warned := false }
          | none => .ok { state := { st with data.n_katu := none }, warned := false }
        else if cid = "sim_n300" then
          match input.map env.parseNat with
          | some (some v) => .ok { state := { st with data.n300 := some v }, warned := false }
          | some none => .ok { state := st, warned := false }
          | none => .ok { state := { st with data.n300 := none }, warned := false }
        else if cid = "sim_n100" then
          match input.map env.parseNat with
          | some (some v) => .ok { state := { st with data.n100 := some v }, warned := false }
          | some none => .ok { state := st, warned := false }
          | none => .ok { state := { st with data.n100 := none }, warned := false }
        else if cid = "sim_n50" then
          match input.map env.parseNat with
          | some (some v) => .ok { state := { st with data.n50 := some v }, warned := false }
          | some none => .ok { state := st, warned := false }
          | none => .ok { state := { st with data.n50 := none }, warned := false }
        else if cid = "sim_miss" then
          match input.map env.parseNat with
          | some (some v) => .ok { state := { st with data.n_miss := some v }, warned := false }
          | some none => .ok { state := st, warned := false }
          | none => .ok { state := { st with data.n_miss := none }, warned := false }
        else if cid = "sim_score" then
          match input.map env.parseNat with
          | some (some v) => .ok { state := { st with data.score := some v }, warned := false }
          | some none => .ok { state := st, warned := false }
          | none => .ok { state := { st with data.score := none }, warned := false }
        else if cid = "sim_slider_ends" then
          match input.map env.parseNat with
          | some (some v) =>
            .ok { state := { st with data.n_slider_ends := some v }, warned := false }
          | some none => .ok { state := st, warned := false }
          | none => .ok { state := { st with data.n_slider_ends := none }, warned := false }
        else if cid = "sim_large_ticks" then
          match input.map env.parseNat with
          | some (some v) =>
            .ok { state := { st with data.n_large_ticks := some v }, warned := false }
          | some none => .ok { state := st, warned := false }
          | none => .ok { state := { st with data.n_large_ticks := none }, warned := false }
        else if cid = "sim_attrs" then
          .ok { state := { st with data.attrs :=
            { ar := parseAttr env.parseF32 modal "sim_ar",
              cs := parseAttr env.parseF32 modal "sim_cs",
              hp := parseAttr env.parseF32 modal "sim_hp",
              od := parseAttr env.parseF32 modal "sim_od" } }, warned := false }
        else if cid = "sim_speed_adjustments" then
          .ok { state := { st with
            data.clock_rate := parseAttr env.parseF32 modal "sim_clock_rate",
            data.bpm := parseAttr env.parseF32 modal "sim_bpm" }, warned := false }
        else
          .ok { state := st, warned := true }

/-- The component ids `handle_component` recognizes. -/
def recognizedComponentIds : List String :=
  ["sim_mods", "sim_combo", "sim_acc", "sim_geki", "sim_katu", "sim_n300",
   "sim_n100", "sim_n50", "sim_miss", "sim_lazer", "sim_stable",
   "sim_slider_ends", "sim_large_ticks", "sim_score", "sim_clock_rate",
   "sim_attrs", "sim_osu_version", "sim_taiko_version", "sim_catch_version",
   "sim_mania_version"]

/-- The modal ids `handle_modal` recognizes. -/
def recognizedModalIds : List String :=
  ["sim_mods", "sim_acc", "sim_combo", "sim_geki", "sim_katu", "sim_n300",
   "sim_n100", "sim_n50", "sim_miss", "sim_score", "sim_slider_ends",
   "sim_large_ticks", "sim_attrs", "sim_speed_adjustments"]

/-- The single-field modal ids whose stored value is a machine integer. -/
def natFieldIds : List String :=
  ["sim_combo", "sim_geki", "sim_katu", "sim_n300", "sim_n100", "sim_n50",
   "sim_miss", "sim_score", "sim_slider_ends", "sim_large_ticks"]

/-- The stored value the single-field integer modal with the given id
updates. -/
def natField (id : String) (d : SimulateData) : Option Nat :=
  if id = "sim_combo" then d.combo
  else if id = "sim_geki" then d.n_geki
  else if id = "sim_katu" then d.n_katu
  else if id = "sim_n300" then d.n300
  else if id = "sim_n100" then d.n100
  else if id = "sim_n50" then d.n50
  else if id = "sim_miss" then d.n_miss
  else if id = "sim_score" then d.score
  else if id = "sim_slider_ends" then d.n_slider_ends
  else if id = "sim_large_ticks" then d.n_large_ticks
  else none

/-- Overwrite the stored value of the single-field integer modal with
the given id, leaving everything else unchanged: the common shape of
the twelve single-field `handle_modal` branches. -/
def natFieldSet (id : String) (v : Option Nat) (st : SimulateComponents) :
    SimulateComponents :=
  if id = "sim_combo" then { st with data.combo := v }
  else if id = "sim_geki" then { st with data.n_geki := v }
  else if id = "sim_katu" then { st with data.n_katu := v }
  else if id = "sim_n300" then { st with data.n300 := v }
  else if id = "sim_n100" then { st with data.n100 := v }
  else if id = "sim_n50" then { st with data.n50 := v }
  else if id = "sim_miss" then { st with data.n_miss := v }
  else if id = "sim_score" then { st with data.score := v }
  else if id = "sim_slider_ends" then { st with data.n_slider_ends := v }
  else if id = "sim_large_ticks" then { st with data.n_large_ticks := v }
  else st

/-! ## Simulate active message: page building -/

/-- The value `build_page` hands back to the dispatcher:
`BuildPage::new(embed, defer).content(..)`. -/
structure BuildPage (β : Type) where
  body : β
  defer : Bool
  content : String
deriving DecidableEq

/-- Lines 71-89 of `build_page`: overwrite the pp-map attribute fields
with the stored overrides, where present. -/
def applyAttrsToMap (a : SimulateAttributes) (m : Beatmap) : Beatmap :=
  let m1 := match a.ar with | some ar => { m with ar := ar } | none => m
  let m2 := match a.cs with | some cs => { m1 with cs := cs } | none => m1
  let m3 := match a.hp with | some hp => { m2 with hp := hp } | none => m2
  match a.od with | some od => { m3 with od := od } | none => m3

/-- `SimulateComponents::build_page` (lines 70-310): first write the
stored attribute overrides into the pp map, then render the embed —
lines 91-305 are a pure function of the (updated) map and the data,
composed of external formatters and the `SimulateData::simulate`
module, so they are abstracted into the `render` parameter — and
finally `mem::replace(&mut self.defer, true)`: the returned page
carries the pre-call defer flag while the stored flag becomes `true`. -/
def SimulateComponents.buildPage {β : Type}
    (render : SimulateMap → SimulateData → β) (st : SimulateComponents) :
    SimulateComponents × BuildPage β :=
  let pp := applyAttrsToMap st.data.attrs st.map.ppMap
  let map := st.map.setPpMap pp
  let body := render map st.data
  let deferOut := st.defer
  ({ st with map := map, defer := true },
   { body := body, defer := deferOut, content := "Simulated score:" })

/-- The state of `TopIfPagination` that its `build_page` reads: the
entry list, the pager and the content line (the user, mode and pp
fields only feed the rendered text). -/
structure TopIfPagination (ε : Type) where
  entries : List ε
  pages : Pages
  content : String
deriving DecidableEq

/-- `TopIfPagination::build_page` (lines 47-113): slice the entries of
the current page (`end_idx = entries.len().min(index + per_page)`),
render them — the body text is a pure function of the slice and the
pager, abstracted into `render` — and hand back
`BuildPage::new(embed, false).content(..)` without mutating any state. -/
def TopIfPagination.buildPage {ε β : Type}
    (render : List ε → Pages → β) (st : TopIfPagination ε) :
    TopIfPagination ε × BuildPage β :=
  let endIdx := min st.entries.length (st.pages.index + st.pages.perPage)
  let slice := (st.entries.drop st.pages.index).take (endIdx - st.pages.index)
  (st, { body := render slice st.pages, defer := false, content := st.content })

/-! ## Concrete parsers and instances for witnesses

The theorems below quantify over `SimEnv`; these concrete values only
serve to evaluate the handlers at specific inputs. -/

/-- Digits-only accumulator; `none` on the first non-digit. -/
def parseNatAux : List Char → Nat → Option Nat
  | [], acc => some acc
  | c :: cs, acc =>
    if c.isDigit then parseNatAux cs (acc * 10 + (c.toNat - 48)) else none

/-- Modelled from the standard library: `u32::from_str` (and the other
unsigned integer impls) on plain digit strings; overflow and the
optional `+` sign are outside the inputs used here. -/
def parseNatStr (s : String) : Option Nat :=
  if s.data.isEmpty then none else parseNatAux s.data 0

/-- Modelled from the standard library: `f32::from_str` on plain
decimal numerals with an optional sign and fraction; exponents and the
special values are outside the inputs used here. -/
def parseDecimalStr (s : String) : Option Rat :=
  let core : List Char → Option Rat := fun cs =>
    let w := cs.takeWhile (fun c => c ≠ '.')
    let rest := cs.dropWhile (fun c => c ≠ '.')
    match rest with
    | [] => if w.isEmpty then none else (parseNatAux w 0).map (fun n => (n : Rat))
    | _ :: f =>
      if f.contains '.' then none
      else if w.isEmpty && f.isEmpty then none
      else
        match (if w.isEmpty then some 0 else parseNatAux w 0),
              (if f.isEmpty then some 0 else parseNatAux f 0) with
        | some a, some b => some ((a : Rat) + (b : Rat) / ((10 : Rat) ^ f.length))
        | _, _ => none
  match s.data with
  | '-' :: rest => (core rest).map (fun v => -v)
  | '+' :: rest => core rest
  | cs => core cs

/-- A concrete environment for evaluating the handlers: real numeric
parsers, trivial stand-ins for the external mod machinery (no theorem
depends on their global behavior). -/
def simEnvC : SimEnv :=
  { parseMods := fun _ => none
    tryWithMode := fun m _ => some m
    isValid := fun _ => true
    parseF32 := parseDecimalStr
    parseNat := parseNatStr
    fromMenuStr := fun _ => some (TopOldVersion.Osu 22) }

def mapC : Beatmap :=
  { ar := 9, cs := 4, hp := 5, od := 8, mode := GameMode.Osu }

def dataC : SimulateData :=
  { mods := none, acc := none, combo := none, n_geki := none, n_katu := none,
    n300 := none, n100 := none, n50 := none, n_miss := none, score := none,
    n_slider_ends := none, n_large_ticks := none,
    attrs := { ar := none, cs := none, hp := none, od := none },
    clock_rate := none, bpm := none, set_on_lazer := false,
    version := TopOldVersion.Osu 22 }

/-- A freshly constructed simulate message owned by user 1. -/
def stC : SimulateComponents :=
  SimulateComponents.new (SimulateMap.Full mapC) dataC 1

/-- A state whose AR override is set, for the `sim_attrs` counterexample. -/
def stAttrs : SimulateComponents :=
  { stC with data.attrs := { ar := some 5, cs := none, hp := none, od := none } }

/-- Owner-submitted `sim_attrs` modal whose AR input is unparseable. -/
def modalAttrsBad : InteractionModal :=
  { userId := some 1, custom_id := "sim_attrs",
    components := [{ components := [{ custom_id := "sim_ar", value := some "abc" }] }] }

/-- Owner-submitted `sim_acc` modal with value "150". -/
def modalAcc150 : InteractionModal :=
  { userId := some 1, custom_id := "sim_acc",
    components := [{ components := [{ custom_id := "sim_acc", value := some "150" }] }] }

/-- Owner-submitted `sim_combo` modal with value "12". -/
def modalCombo12 : InteractionModal :=
  { userId := some 1, custom_id := "sim_combo",
    components := [{ components := [{ custom_id := "sim_combo", value := some "12" }] }] }

/-- A component click by user 2 on a message owned by user 1. -/
def compNonOwner : InteractionComponent :=
  { userId := some 2, custom_id := "sim_mods", values := [] }

/-- A modal submission by user 2 on a message owned by user 1. -/
def modalNonOwner : InteractionModal :=
  { userId := some 2, custom_id := "sim_acc",
    components := [{ components := [{ custom_id := "sim_acc", value := some "50" }] }] }

/-- An owner click on a component id no current code emits. -/
def compUnknown : InteractionComponent :=
  { userId := some 1, custom_id := "sim_flashlight", values := [] }

/-- An owner submission of a modal id no current code emits. -/
def modalUnknown : InteractionModal :=
  { userId := some 1, custom_id := "sim_flashlight",
    components := [{ components := [{ custom_id := "x", value := some "1" }] }] }

/-- An owner click on the `sim_lazer` toggle. -/
def compLazer : InteractionComponent :=
  { userId := some 1, custom_id := "sim_lazer", values := [] }

/-- An owner selection in the osu! version menu. -/
def compVersionMenu : InteractionComponent :=
  { userId := some 1, custom_id := "sim_osu_version", values := ["osu_september22"] }

/-- A simulate message whose defer flag was cleared by a toggle
handler, for the `build_page` counterexample. -/
def stDefer : SimulateComponents :=
  { stC with defer := false }

/-- A trivial body renderer for evaluating `buildPage` concretely. -/
def renderC : SimulateMap → SimulateData → Nat :=
  fun _ _ => 0

/-- A concrete cache holding one entry, for the hit witness. -/
def cacheC : CachedAttributes Nat Nat :=
  { entries := [{ map_id := 7, lazer := false, mods := 3, attrs := 42 }] }

/-- A score asking for the key `cacheC` holds. -/
def scoreC : Score Nat :=
  { map_id := 7, set_on_lazer := false, mods := 3 }

/-! ## Pager theorems -/

theorem Pages.apply_perPage (p : Pages) (op : PageOp) :
    (PageOp.apply p op).perPage = p.perPage := by
  cases op <;> rfl

theorem Pages.apply_amount (p : Pages) (op : PageOp) :
    (PageOp.apply p op).amount = p.amount := by
  cases op <;> rfl

theorem Pages.apply_lastIndex (p : Pages) (op : PageOp) :
    (PageOp.apply p op).lastIndex = p.lastIndex := by
  unfold Pages.lastIndex
  rw [Pages.apply_perPage, Pages.apply_amount]

theorem Pages.apply_index_le (p : Pages) (op : PageOp)
    (h : p.index ≤ p.lastIndex) :
    (PageOp.apply p op).index ≤ (PageOp.apply p op).lastIndex := by
  rw [Pages.apply_lastIndex]
  cases op with
  | next => exact Nat.min_le_right _ _
  | prev => exact le_trans (Nat.sub_le _ _) h
  | jmp k =>
      show (min (max k 1) p.lastPage - 1) * p.perPage ≤ p.lastIndex
      have h1 : min (max k 1) p.lastPage - 1 ≤ p.lastIndex / p.perPage := by
        have hlp : p.lastPage = p.lastIndex / p.perPage + 1 := rfl
        have hm : min (max k 1) p.lastPage ≤ p.lastIndex / p.perPage + 1 :=
          hlp ▸ Nat.min_le_right _ _
        exact Nat.sub_le_of_le_add hm
      calc (min (max k 1) p.lastPage - 1) * p.perPage
          ≤ (p.lastIndex / p.perPage) * p.perPage :=
            Nat.mul_le_mul_right _ h1
        _ ≤ p.lastIndex := Nat.div_mul_le_self _ _

theorem Pages.run_perPage (p : Pages) (ops : List PageOp) :
    (p.run ops).perPage = p.perPage := by
  induction ops generalizing p with
  | nil => rfl
  | cons op ops ih =>
      show ((PageOp.apply p op).run ops).perPage = p.perPage
      rw [ih, Pages.apply_perPage]

theorem Pages.run_amount (p : Pages) (ops : List PageOp) :
    (p.run ops).amount = p.amount := by
  induction ops generalizing p with
  | nil => rfl
  | cons op ops ih =>
      show ((PageOp.apply p op).run ops).amount = p.amount
      rw [ih, Pages.apply_amount]

theorem Pages.run_index_le (p : Pages) (ops : List PageOp)
    (h : p.index ≤ p.lastIndex) :
    (p.run ops).index ≤ (p.run ops).lastIndex := by
  induction ops generalizing p with
  | nil => exact h
  | cons op ops ih =>
      exact ih (PageOp.apply p op) (Pages.apply_index_le p op h)

/-- C7: for all entry counts `n ≥ 0` and page sizes `p ≥ 1`, after any
sequence of next/prev/jump mutations on a freshly built pager the
index is `0` when `n = 0` and satisfies `0 ≤ index < n` otherwise, so
slicing the entries from `index` to `min n (index + per_page)` stays
in bounds. -/
theorem pages_index_invariant (p n : Nat) (hp : 1 ≤ p) (ops : List PageOp) :
    (n = 0 → ((Pages.new p n).run ops).index = 0)
  ∧ (0 < n → ((Pages.new p n).run ops).index < n)
  ∧ ((Pages.new p n).run ops).index
      ≤ min n (((Pages.new p n).run ops).index + ((Pages.new p n).run ops).perPage) := by
  have hle : ((Pages.new p n).run ops).index ≤ ((Pages.new p n).run ops).lastIndex :=
    Pages.run_index_le _ _ (Nat.zero_le _)
  have hpp : ((Pages.new p n).run ops).perPage = p := Pages.run_perPage _ _
  have ham : ((Pages.new p n).run ops).amount = n := Pages.run_amount _ _
  have hli : ((Pages.new p n).run ops).lastIndex = p * ((n - 1) / p) := by
    unfold Pages.lastIndex
    rw [hpp, ham]
  have hlim : ((Pages.new p n).run ops).lastIndex ≤ n - 1 := by
    rw [hli]
    calc p * ((n - 1) / p) = ((n - 1) / p) * p := Nat.mul_comm _ _
      _ ≤ n - 1 := Nat.div_mul_le_self _ _
  have hidx : ((Pages.new p n).run ops).index ≤ n - 1 := le_trans hle hlim
  refine ⟨?_, ?_, ?_⟩
  · intro h0
    subst h0
    exact Nat.le_zero.mp hidx
  · intro hn
    exact lt_of_le_of_lt hidx (Nat.sub_lt hn Nat.one_pos)
  · refine le_min ?_ (Nat.le_add_right _ _)
    exact le_trans hidx (Nat.sub_le _ _)

/-- Closed instance of `pages_index_invariant`: 12 entries, page size 5,
a next/jump/prev sequence. -/
theorem pages_index_invariant_witness :
    1 ≤ 5
  ∧ ((12 = 0 → ((Pages.new 5 12).run [PageOp.next, PageOp.jmp 99, PageOp.prev]).index = 0)
  ∧ (0 < 12 → ((Pages.new 5 12).run [PageOp.next, PageOp.jmp 99, PageOp.prev]).index < 12)
  ∧ ((Pages.new 5 12).run [PageOp.next, PageOp.jmp 99, PageOp.prev]).index
      ≤ min 12 (((Pages.new 5 12).run [PageOp.next, PageOp.jmp 99, PageOp.prev]).index
          + ((Pages.new 5 12).run [PageOp.next, PageOp.jmp 99, PageOp.prev]).perPage)) :=
  ⟨by decide, pages_index_invariant 5 12 (by decide) [PageOp.next, PageOp.jmp 99, PageOp.prev]⟩

/-- C8: `jump k` followed by `curr_page` yields `clamp k 1 last_page`;
`next_page`/`prev_page` saturate at the boundaries; and the concrete
12-entries/page-size-5 scenario behaves as specified. -/
theorem pages_jump_clamp (pg : Pages) (k : Nat) (hp : 1 ≤ pg.perPage) :
    (pg.jump k).currPage = min (max k 1) pg.lastPage
  ∧ (pg.nextPage).index ≤ pg.lastIndex
  ∧ (pg.index = pg.lastIndex → pg.nextPage = pg)
  ∧ (pg.index = 0 → pg.prevPage = pg)
  ∧ ((Pages.new 5 12).currPage = 1 ∧ (Pages.new 5 12).lastPage = 3
      ∧ ((Pages.new 5 12).nextPage.nextPage).currPage = 3
      ∧ ((Pages.new 5 12).nextPage.nextPage.nextPage).currPage = 3) := by
  refine ⟨?_, Nat.min_le_right _ _, ?_, ?_, by decide⟩
  · show ((min (max k 1) pg.lastPage - 1) * pg.perPage) / pg.perPage + 1
        = min (max k 1) pg.lastPage
    rw [Nat.mul_div_cancel _ (Nat.lt_of_lt_of_le Nat.zero_lt_one hp)]
    have h1 : 1 ≤ min (max k 1) pg.lastPage := by
      refine le_min (le_max_right _ _) ?_
      show 1 ≤ pg.lastIndex / pg.perPage + 1
      exact Nat.le_add_left 1 _
    omega
  · intro h
    have hmin : min (pg.index + pg.perPage) pg.lastIndex = pg.index := by
      rw [h]
      exact min_eq_right (Nat.le_add_right _ _)
    show { pg with index := min (pg.index + pg.perPage) pg.lastIndex } = pg
    rw [hmin]
  · intro h
    have hz : pg.index - pg.perPage = pg.index := by
      rw [h]
      exact Nat.zero_sub _
    show { pg with index := pg.index - pg.perPage } = pg
    rw [hz]

/-- Closed instance of `pages_jump_clamp` at a 12-entry, page-size-5
pager and jump target 7. -/
theorem pages_jump_clamp_witness :
    1 ≤ (Pages.new 5 12).perPage
  ∧ (((Pages.new 5 12).jump 7).currPage = min (max 7 1) (Pages.new 5 12).lastPage
  ∧ ((Pages.new 5 12).nextPage).index ≤ (Pages.new 5 12).lastIndex
  ∧ ((Pages.new 5 12).index = (Pages.new 5 12).lastIndex →
      (Pages.new 5 12).nextPage = Pages.new 5 12)
  ∧ ((Pages.new 5 12).index = 0 → (Pages.new 5 12).prevPage = Pages.new 5 12)
  ∧ ((Pages.new 5 12).currPage = 1 ∧ (Pages.new 5 12).lastPage = 3
      ∧ ((Pages.new 5 12).nextPage.nextPage).currPage = 3
      ∧ ((Pages.new 5 12).nextPage.nextPage.nextPage).currPage = 3)) :=
  ⟨by decide, pages_jump_clamp (Pages.new 5 12) 7 (by decide)⟩

/-! ## Attribute cache theorems -/

theorem CachedAttributes.find?_eq_none_of_not_mem {μ α : Type} [DecidableEq μ]
    (c : CachedAttributes μ α) (s : Score μ) (hk : s.key ∉ c.keys) :
    c.entries.find? (fun e =>
      decide (e.map_id = s.map_id ∧ e.mods = s.mods ∧ e.lazer = s.set_on_lazer))
      = none := by
  rw [List.find?_eq_none]
  intro e he
  simp only [decide_eq_true_eq, not_and]
  intro h1 h2 h3
  apply hk
  have hkey : e.key = s.key := by
    unfold CachedEntry.key Score.key
    rw [h1, h2, h3]
  exact hkey ▸ List.mem_map_of_mem CachedEntry.key he

theorem CachedAttributes.get_preserves_nodup {μ α τ : Type} [DecidableEq μ]
    (suspicious : τ → Bool) (calculate : τ → μ → Bool → α)
    (c : CachedAttributes μ α) (m : τ) (s : Score μ)
    (h : c.keys.Nodup) :
    (c.get suspicious calculate m s).2.keys.Nodup := by
  simp only [CachedAttributes.get]
  cases hfind : c.entries.find? (fun e =>
      decide (e.map_id = s.map_id ∧ e.mods = s.mods ∧ e.lazer = s.set_on_lazer)) with
  | some entry => exact h
  | none =>
      by_cases hs : suspicious m = true
      · simpa [hs] using h
      · have hnot : s.key ∉ c.keys := by
          intro hmem
          obtain ⟨e, he, hkey⟩ := List.mem_map.mp hmem
          have hfalse := List.find?_eq_none.mp hfind e he
          simp only [decide_eq_true_eq] at hfalse
          apply hfalse
          unfold CachedEntry.key Score.key at hkey
          exact ⟨congrArg Prod.fst hkey, congrArg (fun q => q.2.1) hkey,
            congrArg (fun q => q.2.2) hkey⟩
        rw [if_neg hs]
        show (List.map CachedEntry.key (c.entries ++ [_])).Nodup
        rw [List.map_append, List.nodup_append]
        refine ⟨h, List.nodup_singleton _, ?_⟩
        intro k hkmem hkmem2
        simp only [List.map_cons, List.map_nil, List.mem_singleton] at hkmem2
        apply hnot
        have hks : k = s.key := by
          rw [hkmem2]
          rfl
        exact hks ▸ hkmem

/-- C3: (i) after any request sequence from an empty cache there is at
most one entry per distinct (map id, mods, lazer) key; (ii) a `get`
whose key is already stored returns a clone of that entry's attributes
and leaves the cache unchanged, so the expensive computation (which
happens exactly when an entry is pushed) runs at most once per
distinct key. -/
theorem cachedAttributes_compute_once {μ α τ : Type} [DecidableEq μ]
    (suspicious : τ → Bool) (calculate : τ → μ → Bool → α) :
    (∀ reqs : List (τ × Score μ),
      ((CachedAttributes.empty μ α).runGets suspicious calculate reqs).keys.Nodup)
  ∧ (∀ (c : CachedAttributes μ α) (m : τ) (s : Score μ),
      s.key ∈ c.keys →
      ∃ e, e ∈ c.entries ∧ e.key = s.key ∧
        c.get suspicious calculate m s = (some e.attrs, c)) := by
  constructor
  · intro reqs
    have main : ∀ (reqs : List (τ × Score μ)) (c : CachedAttributes μ α),
        c.keys.Nodup → (c.runGets suspicious calculate reqs).keys.Nodup := by
      intro reqs
      induction reqs with
      | nil => intro c h; exact h
      | cons r rs ih =>
          intro c h
          exact ih _ (CachedAttributes.get_preserves_nodup suspicious calculate c r.1 r.2 h)
    exact main reqs _ (by simp [CachedAttributes.empty, CachedAttributes.keys])
  · intro c m s hk
    cases hfind : c.entries.find? (fun e =>
        decide (e.map_id = s.map_id ∧ e.mods = s.mods ∧ e.lazer = s.set_on_lazer)) with
    | none =>
        exfalso
        obtain ⟨e, he, hkey⟩ := List.mem_map.mp hk
        have := List.find?_eq_none.mp hfind e he
        simp only [decide_eq_true_eq] at this
        apply this
        unfold CachedEntry.key Score.key at hkey
        exact ⟨congrArg Prod.fst hkey, congrArg (fun q => q.2.1) hkey,
          congrArg (fun q => q.2.2) hkey⟩
    | some e =>
        refine ⟨e, List.mem_of_find?_eq_some hfind, ?_, ?_⟩
        · have := List.find?_some hfind
          simp only [decide_eq_true_eq] at this
          unfold CachedEntry.key Score.key
          rw [this.1, this.2.1, this.2.2]
        · simp only [CachedAttributes.get]
          rw [hfind]

/-- Closed instance of `cachedAttributes_compute_once`: the key of
`scoreC` is already stored in `cacheC`, and `get` hands back the
stored attributes with the cache untouched. -/
theorem cachedAttributes_compute_once_witness :
    Score.key scoreC ∈ cacheC.keys
  ∧ ∃ e, e ∈ cacheC.entries ∧ e.key = Score.key scoreC ∧
      cacheC.get (fun _ => false) (fun _ _ _ => (0 : Nat)) (0 : Nat) scoreC
        = (some e.attrs, cacheC) :=
  ⟨by decide,
   (cachedAttributes_compute_once (fun _ => false) (fun _ _ _ => (0 : Nat))).2
     cacheC 0 scoreC (by decide)⟩

/-- C4: a `get` on an uncached key whose map trips the suspicion guard
returns no attributes and leaves the entry list unchanged — no
negative entry is inserted — and a later `get` on the same map with a
guard evaluation that does not trip still computes and caches. -/
theorem cachedAttributes_guard_no_negative {μ α τ : Type} [DecidableEq μ]
    (suspicious : τ → Bool) (calculate : τ → μ → Bool → α)
    (c : CachedAttributes μ α) (m : τ) (s : Score μ)
    (hs : suspicious m = true) (hk : s.key ∉ c.keys) :
    c.get suspicious calculate m s = (none, c)
  ∧ (∀ (suspicious2 : τ → Bool) (s2 : Score μ),
      suspicious2 m = false → s2.key ∉ c.keys →
      c.get suspicious2 calculate m s2 =
        (some (calculate m s2.mods s2.set_on_lazer),
         { entries := c.entries ++
             [{ map_id := s2.map_id, lazer := s2.set_on_lazer,
                mods := s2.mods,
                attrs := calculate m s2.mods s2.set_on_lazer }] })) := by
  constructor
  · simp only [CachedAttributes.get]
    rw [CachedAttributes.find?_eq_none_of_not_mem c s hk]
    simp [hs]
  · intro suspicious2 s2 hs2 hk2
    simp only [CachedAttributes.get]
    rw [CachedAttributes.find?_eq_none_of_not_mem c s2 hk2]
    simp [hs2]

/-- Closed instance of `cachedAttributes_guard_no_negative`: map 5
trips the guard `m = 5`, its key is absent from `cacheC`, and the
follow-up uses a guard that does not trip. -/
theorem cachedAttributes_guard_no_negative_witness :
    (fun m => decide (m = 5)) (5 : Nat) = true
  ∧ Score.key { map_id := 9, set_on_lazer := false, mods := (3 : Nat) } ∉ cacheC.keys
  ∧ (cacheC.get (fun m => decide (m = 5)) (fun _ _ _ => (11 : Nat)) 5
      { map_id := 9, set_on_lazer := false, mods := 3 } = (none, cacheC)
  ∧ (∀ (suspicious2 : Nat → Bool) (s2 : Score Nat),
      suspicious2 5 = false → s2.key ∉ cacheC.keys →
      cacheC.get suspicious2 (fun _ _ _ => (11 : Nat)) 5 s2 =
        (some 11,
         { entries := cacheC.entries ++
             [{ map_id := s2.map_id, lazer := s2.set_on_lazer,
                mods := s2.mods, attrs := 11 }] }))) :=
  ⟨by decide, by decide,
   cachedAttributes_guard_no_negative (fun m => decide (m = 5))
     (fun _ _ _ => (11 : Nat)) cacheC 5
     { map_id := 9, set_on_lazer := false, mods := 3 } (by decide) (by decide)⟩

/-! ## Simulate active message theorems -/

/-- C1: a component event or modal submission whose originating user
differs from `msg_owner` yields `Ignore` (component) respectively a
silent `Ok(())` (modal), with every field of the instance state left
unchanged. -/
theorem nonowner_events_are_noops (env : SimEnv) (st : SimulateComponents)
    (comp : InteractionComponent) (modal : InteractionModal) (uidc uidm : Nat)
    (hc : comp.userId = some uidc) (hcneq : uidc ≠ st.msg_owner)
    (hm : modal.userId = some uidm) (hmneq : uidm ≠ st.msg_owner) :
    st.handleComponent env comp
      = { state := st, res := .ignore, acked := false, warned := false }
  ∧ st.handleModal env modal = .ok { state := st, warned := false } := by
  constructor
  · simp only [SimulateComponents.handleComponent, hc]
    rw [if_pos hcneq]
  · simp only [SimulateComponents.handleModal, hm]
    rw [if_pos hmneq]

/-- Closed instance of `nonowner_events_are_noops`: user 2 interacting
with a message owned by user 1. -/
theorem nonowner_events_are_noops_witness :
    compNonOwner.userId = some 2 ∧ (2 : Nat) ≠ stC.msg_owner
  ∧ (stC.handleComponent simEnvC compNonOwner
      = { state := stC, res := .ignore, acked := false, warned := false }
  ∧ stC.handleModal simEnvC modalNonOwner = .ok { state := stC, warned := false }) :=
  ⟨rfl, by decide,
   nonowner_events_are_noops simEnvC stC compNonOwner modalNonOwner 2 2
     rfl (by decide) rfl (by decide)⟩

/-- C9: an owner event with an unrecognized component or modal id is
logged (the `warned` flag) and ignored: the component handler returns
`Ignore`, the modal handler returns `Ok(())`, both without touching
the state, and neither treats it as an error. -/
theorem unknown_ids_degrade_gracefully (env : SimEnv) (st : SimulateComponents)
    (comp : InteractionComponent) (modal : InteractionModal)
    (uidc uidm : Nat) (field : ModalField)
    (hc : comp.userId = some uidc) (hco : uidc = st.msg_owner)
    (hcid : comp.custom_id ∉ recognizedComponentIds)
    (hm : modal.userId = some uidm) (hmo : uidm = st.msg_owner)
    (hf : firstInput modal = some field)
    (hmid : modal.custom_id ∉ recognizedModalIds) :
    st.handleComponent env comp
      = { state := st, res := .ignore, acked := false, warned := true }
  ∧ st.handleModal env modal = .ok { state := st, warned := true } := by
  subst hco
  subst hmo
  simp only [recognizedComponentIds, List.mem_cons, not_or] at hcid
  simp only [recognizedModalIds, List.mem_cons, not_or] at hmid
  constructor
  · simp [SimulateComponents.handleComponent, hc, hcid]
  · simp [SimulateComponents.handleModal, hm, hf, hmid]

/-- Closed instance of `unknown_ids_degrade_gracefully`: the owner
clicks and submits the stale id "sim_flashlight". -/
theorem unknown_ids_degrade_gracefully_witness :
    compUnknown.custom_id ∉ recognizedComponentIds
  ∧ modalUnknown.custom_id ∉ recognizedModalIds
  ∧ (stC.handleComponent simEnvC compUnknown
      = { state := stC, res := .ignore, acked := false, warned := true }
  ∧ stC.handleModal simEnvC modalUnknown = .ok { state := stC, warned := true }) :=
  ⟨by decide, by decide,
   unknown_ids_degrade_gracefully simEnvC stC compUnknown modalUnknown 1 1
     { custom_id := "x", value := some "1" } rfl rfl (by decide) rfl rfl rfl (by decide)⟩

/-- C2 counterexample: the owner submits a `sim_attrs` modal whose AR
input "abc" is present but unparseable while `ar` was previously
`some 5`; `handle_modal` returns `Ok` but stores `none`, i.e. it
clears the previous value instead of leaving it unchanged. -/
theorem modal_unparseable_attr_clears :
    stAttrs.data.attrs.ar = some 5
  ∧ stAttrs.handleModal simEnvC modalAttrsBad
      = .ok { state := { stAttrs with data.attrs :=
          { ar := none, cs := none, hp := none, od := none } }, warned := false }
  ∧ ({ stAttrs with data.attrs :=
        { ar := none, cs := none, hp := none, od := none } }
      : SimulateComponents).data.attrs.ar ≠ stAttrs.data.attrs.ar :=
  ⟨rfl, rfl, by decide⟩

/-- C2 (amended): for owner modal submissions, the single-field modals
clear their stored value on an absent/empty field, store the parsed
value on success (clamped into [0,100] for `sim_acc`; only if valid
for the map's mode for `sim_mods`) and leave the whole state unchanged
while still returning `Ok` on a parse failure; the multi-field
`sim_attrs` / `sim_speed_adjustments` modals instead overwrite each
field with its `parse_attr` result, so an unparseable non-empty input
clears the previous value there. -/
theorem modal_field_update_semantics (env : SimEnv) (st : SimulateComponents)
    (modal : InteractionModal) (uid : Nat) (field : ModalField)
    (hm : modal.userId = some uid) (ho : uid = st.msg_owner)
    (hf : firstInput modal = some field) :
    (∀ id, id ∈ natFieldIds → modal.custom_id = id →
      (nonEmptyVal field.value = none →
        st.handleModal env modal
          = .ok { state := natFieldSet id none st, warned := false })
      ∧ (∀ s v, nonEmptyVal field.value = some s → env.parseNat s = some v →
        st.handleModal env modal
          = .ok { state := natFieldSet id (some v) st, warned := false })
      ∧ (∀ s, nonEmptyVal field.value = some s → env.parseNat s = none →
        st.handleModal env modal = .ok { state := st, warned := false }))
  ∧ (modal.custom_id = "sim_acc" →
      (nonEmptyVal field.value = none →
        st.handleModal env modal
          = .ok { state := { st with data.acc := none }, warned := false })
      ∧ (∀ s v, nonEmptyVal field.value = some s → env.parseF32 s = some v →
        st.handleModal env modal
          = .ok { state := { st with data.acc := some (clampF32 v 0 100) },
                  warned := false })
      ∧ (∀ s, nonEmptyVal field.value = some s → env.parseF32 s = none →
        st.handleModal env modal = .ok { state := st, warned := false }))
  ∧ (modal.custom_id = "sim_mods" →
      (nonEmptyVal field.value = none →
        st.handleModal env modal
          = .ok { state := { st with data.mods := none }, warned := false })
      ∧ (∀ s, nonEmptyVal field.value = some s →
          env.parseMods (trimModsInput s) = none →
        st.handleModal env modal = .ok { state := st, warned := false })
      ∧ (∀ s m, nonEmptyVal field.value = some s →
          env.parseMods (trimModsInput s) = some m →
        (env.tryWithMode m st.map.mode = none →
          st.handleModal env modal = .ok { state := st, warned := false })
        ∧ (∀ m2, env.tryWithMode m st.map.mode = some m2 →
          (env.isValid m2 = true →
            st.handleModal env modal
              = .ok { state := { st with data.mods := some m2 }, warned := false })
          ∧ (env.isValid m2 = false →
            st.handleModal env modal = .ok { state := st, warned := false }))))
  ∧ (modal.custom_id = "sim_attrs" →
      st.handleModal env modal
        = .ok { state := { st with data.attrs :=
            { ar := parseAttr env.parseF32 modal "sim_ar",
              cs := parseAttr env.parseF32 modal "sim_cs",
              hp := parseAttr env.parseF32 modal "sim_hp",
              od := parseAttr env.parseF32 modal "sim_od" } }, warned := false })
  ∧ (modal.custom_id = "sim_speed_adjustments" →
      st.handleModal env modal
        = .ok { state := { st with
            data.clock_rate := parseAttr env.parseF32 modal "sim_clock_rate",
            data.bpm := parseAttr env.parseF32 modal "sim_bpm" }, warned := false })
  ∧ (∀ (parse : String → Option Rat) (cid : String) (c : ModalField)
        (m2 : InteractionModal),
      m2.components = [{ components := [c] }] → c.custom_id = cid →
      parseAttr parse m2 cid = (nonEmptyVal c.value).bind parse)
  ∧ (∀ (id : String) (v : Option Nat) (st2 : SimulateComponents),
      id ∈ natFieldIds → natField id (natFieldSet id v st2).data = v) := by
  subst ho
  refine ⟨?_, ?_, ?_, ?_, ?_, ?_, ?_⟩
  · intro id hid hcid
    fin_cases hid <;>
      refine ⟨fun hv => ?_, fun s v hv hp => ?_, fun s hv hp => ?_⟩ <;>
      simp_all [SimulateComponents.handleModal, natFieldSet]
  · intro hcid
    refine ⟨fun hv => ?_, fun s v hv hp => ?_, fun s hv hp => ?_⟩ <;>
      simp_all [SimulateComponents.handleModal]
  · intro hcid
    refine ⟨fun hv => ?_, fun s hv hpm => ?_, fun s m hv hpm => ⟨fun htm => ?_,
      fun m2 htm => ⟨fun hval => ?_, fun hval => ?_⟩⟩⟩ <;>
      simp_all [SimulateComponents.handleModal]
  · intro hcid
    simp [SimulateComponents.handleModal, hm, hf, hcid]
  · intro hcid
    simp [SimulateComponents.handleModal, hm, hf, hcid]
  · intro parse cid c m2 hrows hid
    simp [parseAttr, hrows, hid, List.findSome?]
  · intro id v st2 hid
    fin_cases hid <;> simp [natField, natFieldSet]

/-- Closed instance of `modal_field_update_semantics`: the owner
submits `sim_combo` with value "12" and the stored combo becomes 12. -/
theorem modal_field_update_semantics_witness :
    "sim_combo" ∈ natFieldIds
  ∧ simEnvC.parseNat "12" = some 12
  ∧ stC.handleModal simEnvC modalCombo12
      = .ok { state := natFieldSet "sim_combo" (some 12) stC, warned := false } :=
  ⟨by decide, by decide,
   ((modal_field_update_semantics simEnvC stC modalCombo12 1
       { custom_id := "sim_combo", value := some "12" } rfl rfl rfl).1
     "sim_combo" (by decide) rfl).2.1 "12" 12 (by decide) (by decide)⟩

/-- C10: an owner `sim_acc` submission whose value parses as `v`
stores `clamp(v, 0, 100)`, which always lies within `[0, 100]`. -/
theorem sim_acc_stores_clamped (env : SimEnv) (st : SimulateComponents)
    (modal : InteractionModal) (uid : Nat) (field : ModalField)
    (hm : modal.userId = some uid) (ho : uid = st.msg_owner)
    (hcid : modal.custom_id = "sim_acc")
    (hf : firstInput modal = some field)
    (s : String) (v : Rat)
    (hv : nonEmptyVal field.value = some s) (hp : env.parseF32 s = some v) :
    st.handleModal env modal
      = .ok { state := { st with data.acc := some (clampF32 v 0 100) },
              warned := false }
  ∧ 0 ≤ clampF32 v 0 100 ∧ clampF32 v 0 100 ≤ 100 := by
  subst ho
  refine ⟨?_, ?_, ?_⟩
  · simp [SimulateComponents.handleModal, hm, hf, hcid, hv, hp]
  · unfold clampF32
    split_ifs with h1 h2
    · exact le_refl 0
    · norm_num
    · exact le_of_not_lt h1
  · unfold clampF32
    split_ifs with h1 h2
    · norm_num
    · exact le_refl 100
    · exact le_of_not_lt h2

/-- Closed instance of `sim_acc_stores_clamped`: submitting "150"
stores 100, not 150. -/
theorem sim_acc_stores_clamped_witness :
    parseDecimalStr "150" = some 150
  ∧ clampF32 150 0 100 = 100
  ∧ stC.handleModal simEnvC modalAcc150
      = .ok { state := { stC with data.acc := some (clampF32 150 0 100) },
              warned := false } :=
  ⟨by decide, by decide,
   (sim_acc_stores_clamped simEnvC stC modalAcc150 1
     { custom_id := "sim_acc", value := some "150" } rfl rfl rfl rfl
     "150" 150 (by decide) (by decide)).1⟩

/-- C6 counterexample: the `sim_lazer` handler resets the defer flag
to "send immediately" (`false`) even though it never acknowledged the
platform callback itself (`acked = false`), contradicting the claim
that only handlers that already acknowledged the callback reset the
flag. -/
theorem defer_reset_without_ack :
    stC.defer = true
  ∧ (stC.handleComponent simEnvC compLazer).state.defer = false
  ∧ (stC.handleComponent simEnvC compLazer).acked = false :=
  ⟨rfl, by decide, by decide⟩

/-- C6 (amended): the defer flag is `true` at construction; every
`build_page` render returns the pre-call flag and sets the stored flag
to `true`; the `sim_lazer`/`sim_stable` handlers reset it to `false`
while requesting a rebuild without acknowledging the callback
themselves; the select-menu version handler acknowledges (defers) the
callback eagerly and leaves the stored flag unchanged. -/
theorem defer_flag_lifecycle (env : SimEnv) :
    (∀ (map : SimulateMap) (data : SimulateData) (owner : Nat),
      (SimulateComponents.new map data owner).defer = true)
  ∧ (∀ (β : Type) (render : SimulateMap → SimulateData → β) (st : SimulateComponents),
      (st.buildPage render).1.defer = true ∧ (st.buildPage render).2.defer = st.defer)
  ∧ (∀ (st : SimulateComponents) (comp : InteractionComponent) (uid : Nat),
      comp.userId = some uid → uid = st.msg_owner →
      (comp.custom_id = "sim_lazer" →
        st.handleComponent env comp
          = { state := { st with data.set_on_lazer := true, defer := false },
              res := .buildPage, acked := false, warned := false })
      ∧ (comp.custom_id = "sim_stable" →
        st.handleComponent env comp
          = { state := { st with
                           data.set_on_lazer := false,
                           data.n_slider_ends := none,
                           data.n_large_ticks := none,
                           defer := false },
              res := .buildPage, acked := false, warned := false }))
  ∧ (∀ (st : SimulateComponents) (comp : InteractionComponent) (uid : Nat)
        (v : String) (ver : TopOldVersion),
      comp.userId = some uid → uid = st.msg_owner →
      comp.custom_id = "sim_osu_version" →
      comp.values.head? = some v → env.fromMenuStr v = some ver →
      st.handleComponent env comp
        = { state := { st with data.version := ver }, res := .buildPage,
            acked := true, warned := false }) := by
  refine ⟨fun map data owner => rfl, fun β render st => ⟨rfl, rfl⟩, ?_, ?_⟩
  · intro st comp uid hc ho
    subst ho
    constructor
    · intro hcid
      simp [SimulateComponents.handleComponent, hc, hcid]
    · intro hcid
      simp [SimulateComponents.handleComponent, hc, hcid]
  · intro st comp uid v ver hc ho hcid hv hver
    subst ho
    simp [SimulateComponents.handleComponent, SimulateComponents.handleTopoldMenu,
      hc, hcid, hv, hver]

/-- Closed instance of `defer_flag_lifecycle`: the owner toggles
`sim_lazer` (reset without acknowledgment) and picks a version in the
select menu (acknowledgment without reset). -/
theorem defer_flag_lifecycle_witness :
    stC.handleComponent simEnvC compLazer
      = { state := { stC with data.set_on_lazer := true, defer := false },
          res := .buildPage, acked := false, warned := false }
  ∧ stC.handleComponent simEnvC compVersionMenu
      = { state := { stC with data.version := TopOldVersion.Osu 22 },
          res := .buildPage, acked := true, warned := false } :=
  ⟨((defer_flag_lifecycle simEnvC).2.2.1 stC compLazer 1 rfl rfl).1 rfl,
   (defer_flag_lifecycle simEnvC).2.2.2 stC compVersionMenu 1
     "osu_september22" (TopOldVersion.Osu 22) rfl rfl rfl rfl rfl⟩

theorem SimulateMap.setPpMap_ppMap (m : SimulateMap) (b : Beatmap) :
    (m.setPpMap b).ppMap = b := by
  cases m <;> rfl

theorem SimulateMap.setPpMap_setPpMap (m : SimulateMap) (b b2 : Beatmap) :
    (m.setPpMap b).setPpMap b2 = m.setPpMap b2 := by
  cases m <;> rfl

theorem applyAttrsToMap_idem (a : SimulateAttributes) (m : Beatmap) :
    applyAttrsToMap a (applyAttrsToMap a m) = applyAttrsToMap a m := by
  rcases a with ⟨ar, cs, hp, od⟩
  unfold applyAttrsToMap
  cases ar <;> cases cs <;> cases hp <;> cases od <;> rfl

/-- C5 counterexample: on an instance whose defer flag is `false`
(as left behind by the `sim_lazer`/`sim_stable` handlers), two
consecutive `build_page` calls yield different outputs, because the
returned page carries the pre-call defer flag and the first call sets
the stored flag to `true`. -/
theorem build_page_not_idempotent_cex :
    ((stDefer.buildPage renderC).1.buildPage renderC).2
      ≠ (stDefer.buildPage renderC).2 := by
  decide

/-- C5 (amended): two consecutive `build_page` calls with no external
mutation in between always agree on the page body and content; the
full outputs (including the returned defer flag) coincide exactly when
the stored defer flag was already `true` — in particular from the
second call onward — and `TopIfPagination::build_page` mutates nothing
and is fully idempotent. -/
theorem build_page_idempotent_body (β : Type)
    (render : SimulateMap → SimulateData → β) (st : SimulateComponents) :
    ((st.buildPage render).1.buildPage render).2.body = (st.buildPage render).2.body
  ∧ ((st.buildPage render).1.buildPage render).2.content
      = (st.buildPage render).2.content
  ∧ ((st.buildPage render).1.buildPage render).2.defer = true
  ∧ (st.defer = true →
      ((st.buildPage render).1.buildPage render).2 = (st.buildPage render).2)
  ∧ (∀ (ε : Type) (render2 : List ε → Pages → β) (stT : TopIfPagination ε),
      ((stT.buildPage render2).1.buildPage render2).2 = (stT.buildPage render2).2) := by
  have hbody : ((st.buildPage render).1.buildPage render).2.body
      = (st.buildPage render).2.body := by
    simp only [SimulateComponents.buildPage, SimulateMap.setPpMap_ppMap,
      SimulateMap.setPpMap_setPpMap, applyAttrsToMap_idem]
  refine ⟨hbody, rfl, rfl, fun hd => ?_, fun ε render2 stT => rfl⟩
  have hcontent : ((st.buildPage render).1.buildPage render).2.content
      = (st.buildPage render).2.content := rfl
  have h2 : ((st.buildPage render).1.buildPage render).2.defer
      = (st.buildPage render).2.defer := by
    simp only [SimulateComponents.buildPage, hd]
  cases h1 : ((st.buildPage render).1.buildPage render).2
  cases h3 : (st.buildPage render).2
  simp_all

/-- Closed instance of `build_page_idempotent_body`: on a freshly
constructed instance (defer flag `true`) the two outputs coincide in
full. -/
theorem build_page_idempotent_body_witness :
    stC.defer = true
  ∧ ((stC.buildPage renderC).1.buildPage renderC).2 = (stC.buildPage renderC).2 :=
  ⟨rfl, (build_page_idempotent_body Nat renderC stC).2.2.2.1 rfl⟩
